import Mathlib

/-!
Shallow embedding of the speaktome browser client audio subsystem
(Utils, AudioRecorder, WebSocketClient, FileUploader, AudioClient /
AudioClientV2), together with theorems settling the behavioural claims
about it.  Definitions are translated from the JavaScript sources:
`src/unnamed/part_004` (Utils), `src/client/js/audio/audio_recorder.js`,
`src/client/js/audio/websocket_client.js`,
`src/client/js/audio/file_uploader.js`, `src/client/js/audio-client.js`
and the composed client in `src/unnamed/part_003` (AudioClientV2).
JavaScript numbers are modelled as `Nat` where the code only ever holds
nonnegative integers, byte buffers as `List Nat`, and `undefined`-able
values as `Option`.
-/

namespace SpeakToMe

/-! ## Utils (src/unnamed/part_004) -/

/-- The hard-coded MIME-type allow-list of `Utils.validateAudioFile`. -/
def supportedTypes : List String :=
  ["audio/wav", "audio/wave", "audio/x-wav",
   "audio/mpeg", "audio/mp3",
   "audio/flac",
   "audio/m4a", "audio/x-m4a",
   "audio/webm",
   "audio/ogg"]

/-- The hard-coded 50 MB ceiling of `Utils.validateAudioFile`. -/
def maxAudioFileSize : Nat := 50 * 1024 * 1024

/-- A browser `File` value as seen by the validation and upload code. -/
structure JSFile where
  name : String
  size : Nat
  type : String
  deriving Repr, DecidableEq

/-- Result shape `{valid, error?}` returned by `Utils.validateAudioFile`. -/
structure ValidationResult where
  valid : Bool
  error : Option String := none
  deriving Repr, DecidableEq

/-- `Utils.validateAudioFile(file)`: missing file, then size ceiling, then
MIME allow-list, in that order. -/
def validateAudioFile : Option JSFile → ValidationResult
  | none => { valid := false, error := some "No file selected" }
  | some f =>
    if f.size > maxAudioFileSize then
      { valid := false, error := some "File too large. Maximum size is 50.0 MB" }
    else if !(supportedTypes.contains f.type) then
      { valid := false,
        error := some "Unsupported file format. Supported formats: MP3, WAV, FLAC, M4A, WebM, OGG" }
    else
      { valid := true }

/-- `Utils.getAudioLevel(audioData)`: root mean square of the byte array,
amplified by 10 and clamped at 1; 0 for a missing or empty array. -/
noncomputable def getAudioLevel (audioData : List Nat) : ℝ :=
  if audioData.length = 0 then 0
  else
    min 1 (Real.sqrt (((audioData.map fun d => (d : ℝ) * d).sum / audioData.length)) * 10)

/-! ### Event emitter (`Utils.createEventEmitter`)

A callback receives the current world state and returns the updated state
together with a flag recording whether it threw; `emit` wraps every call in
`try { callback(data) } catch`, so the flag never interrupts the fan-out.
`on` pushes to the end of the per-event list. -/

/-- A subscriber callback: state transformer plus a thrown-exception flag. -/
def EmCallback (σ : Type) : Type := σ → σ × Bool

/-- One `try { callback(data) } catch (e) { console.error(...) }` step of
`emit`: the state effect is kept, the exception flag is swallowed. -/
def emitStep {σ : Type} (st : σ) (cb : EmCallback σ) : σ := (cb st).1

/-- The `forEach` fan-out of `emit` over one subscriber list. -/
def emitList {σ : Type} (cbs : List (EmCallback σ)) (s : σ) : σ :=
  cbs.foldl emitStep s

/-- The `events` object of `createEventEmitter`, keyed by event name. -/
def EventMap (σ : Type) : Type := String → List (EmCallback σ)

/-- `on(event, callback)`: push the callback onto the per-event list. -/
def emitterOn {σ : Type} (m : EventMap σ) (e : String) (cb : EmCallback σ) : EventMap σ :=
  fun x => if x = e then m x ++ [cb] else m x

/-- `emit(event, data)`: synchronous fan-out over the per-event list. -/
def emitterEmit {σ : Type} (m : EventMap σ) (e : String) (s : σ) : σ :=
  emitList (m e) s

/-- Replace a callback by one with the same state effect that never throws. -/
def stripThrow {σ : Type} (cb : EmCallback σ) : EmCallback σ :=
  fun st => ((cb st).1, false)

/-! ### Base64 and format tagging

`blobToBase64` in the clients reads the blob through a `FileReader` data
URL and strips the prefix, yielding the standard base64 encoding of the
blob bytes; modelled here as a direct base64 encoder over the byte list. -/

/-- The standard base64 alphabet. -/
def base64Chars : List Char :=
  "ABCDEFGHIJKLMNOPQRSTUVWXYZabcdefghijklmnopqrstuvwxyz0123456789+/".toList

/-- Character for one 6-bit group. -/
def b64c (n : Nat) : Char := base64Chars.getD n (Char.ofNat 61)

/-- Base64-encode a byte list, padding the final group with `=`. -/
def base64Encode : List Nat → List Char
  | [] => []
  | [b0] =>
    [b64c (b0 / 4), b64c (b0 % 4 * 16), Char.ofNat 61, Char.ofNat 61]
  | [b0, b1] =>
    [b64c (b0 / 4), b64c (b0 % 4 * 16 + b1 / 16), b64c (b1 % 16 * 4), Char.ofNat 61]
  | b0 :: b1 :: b2 :: rest =>
    b64c (b0 / 4) :: b64c (b0 % 4 * 16 + b1 / 16) ::
      b64c (b1 % 16 * 4 + b2 / 64) :: b64c (b2 % 64) :: base64Encode rest

/-- `blobToBase64(blob)`: base64 of the blob bytes. -/
def blobToBase64 (bytes : List Nat) : String := String.mk (base64Encode bytes)

/-- JS `String.prototype.includes`, via `splitOn`. -/
def strIncludes (s sub : String) : Bool := (s.splitOn sub).length > 1

/-- `getFormatFromMimeType(mimeType)` from the audio clients. -/
def getFormatFromMimeType (mimeType : String) : String :=
  if strIncludes mimeType "webm" then "webm"
  else if strIncludes mimeType "ogg" then "ogg"
  else if strIncludes mimeType "wav" then "wav"
  else if strIncludes mimeType "mp4" then "mp4"
  else "webm"

/-! ## WebSocketClient (src/client/js/audio/websocket_client.js) -/

/-- `{success, error?, code?}` result objects returned throughout the
client code. -/
structure JSResult where
  success : Bool
  error : Option String := none
  code : Option String := none
  deriving Repr, DecidableEq

/-- The `connectionSettings` object of `WebSocketClient`. -/
structure ConnectionSettings where
  reconnectAttempts : Nat
  reconnectDelay : Nat
  reconnectBackoff : Nat
  keepAliveInterval : Nat
  deriving Repr, DecidableEq

/-- The constructor defaults of `WebSocketClient.connectionSettings`. -/
def defaultConnectionSettings : ConnectionSettings :=
  { reconnectAttempts := 5, reconnectDelay := 1000,
    reconnectBackoff := 2, keepAliveInterval := 30000 }

/-- The mutable connection-related fields of a `WebSocketClient`. -/
structure WSState where
  isConnected : Bool
  hasWebsocket : Bool
  currentAttempt : Nat
  deriving Repr, DecidableEq

/-- Outbound wire messages (`sendConfig` / `sendAudio` / `sendPing`). -/
inductive OutboundMessage
  | config (model : String) (language : Option String)
  | audio (data : String) (format : String) (model : String) (language : Option String)
  | ping (timestamp : Nat)
  deriving Repr, DecidableEq

/-- `WebSocketClient.send(message)`: guarded by the connection flag and the
socket handle; returns the result object together with the messages actually
transmitted over the socket by this call. -/
def wsSend (s : WSState) (message : OutboundMessage) : JSResult × List OutboundMessage :=
  if !s.isConnected || !s.hasWebsocket then
    ({ success := false, error := some "Not connected to server",
       code := some "NOT_CONNECTED" }, [])
  else
    ({ success := true }, [message])

/-- `WebSocketClient.sendAudio(audioData, format, model, language)`. -/
def sendAudio (s : WSState) (audioData format model : String) (language : Option String) :
    JSResult × List OutboundMessage :=
  wsSend s (.audio audioData format model language)

/-- `WebSocketClient.shouldReconnect()`. -/
def shouldReconnect (cfg : ConnectionSettings) (s : WSState) : Bool :=
  s.currentAttempt < cfg.reconnectAttempts

/-- `WebSocketClient.scheduleReconnect()`: increments the attempt counter
and computes the timer delay `reconnectDelay * reconnectBackoff ^ (attempt - 1)`
for the incremented attempt number. -/
def scheduleReconnect (cfg : ConnectionSettings) (s : WSState) : WSState × Nat :=
  let a := s.currentAttempt + 1
  ({ s with currentAttempt := a }, cfg.reconnectDelay * cfg.reconnectBackoff ^ (a - 1))

/-- The `websocket.onclose` handler: clears the connected flag and, when the
close was not intentional (code 1000) and retries remain, schedules a
reconnect; returns the new state and the scheduled delay, if any. -/
def onClose (cfg : ConnectionSettings) (code : Nat) (s : WSState) : WSState × Option Nat :=
  let s0 : WSState := { s with isConnected := false }
  if code != 1000 && shouldReconnect cfg s0 then
    let sd := scheduleReconnect cfg s0
    (sd.1, some sd.2)
  else
    (s0, none)

/-- The `websocket.onopen` handler: sets the connected flag and resets the
attempt counter to 0. -/
def onOpen (s : WSState) : WSState :=
  { s with isConnected := true, currentAttempt := 0 }

/-- State of the client after `n` consecutive unintentional closes (code
1006), starting from a freshly connected client (attempt counter 0). -/
def afterCloses (cfg : ConnectionSettings) : Nat → WSState
  | 0 => { isConnected := false, hasWebsocket := true, currentAttempt := 0 }
  | n + 1 => (onClose cfg 1006 (afterCloses cfg n)).1

/-- The delay scheduled by the `n`-th consecutive unintentional close
(1-indexed), if a reconnect was scheduled at all. -/
def nthCloseDelay (cfg : ConnectionSettings) (n : Nat) : Option Nat :=
  (onClose cfg 1006 (afterCloses cfg (n - 1))).2

/-! ## AudioRecorder (src/client/js/audio/audio_recorder.js) -/

/-- The mutable recording-related fields of an `AudioRecorder`: the
`isRecording` flag, whether a `MediaRecorder` and an audio stream exist,
the mime type the `MediaRecorder` was created with, and the chunk buffer. -/
structure RecorderState where
  isRecording : Bool
  hasMediaRecorder : Bool
  hasAudioStream : Bool
  mediaRecorderMime : String
  recordedChunks : List (List Nat)
  deriving Repr, DecidableEq

/-- Outcome of one `startRecording` call: the updated recorder state, the
returned result object, and whether `mediaRecorder.start` was invoked
(the platform encoder was started). -/
structure StartOutcome where
  state : RecorderState
  result : JSResult
  encoderStarted : Bool
  deriving Repr, DecidableEq

/-- `AudioRecorder.startRecording(options)`.  `micGranted` models whether
the platform grants microphone access when `requestMicrophoneAccess` has to
be called; `mime` models the value returned by `getSupportedMimeType()`
(the first supported entry of the probe list). -/
def startRecording (micGranted : Bool) (mime : String) (s : RecorderState) : StartOutcome :=
  if s.isRecording then
    { state := s, result := { success := false, error := some "Already recording" },
      encoderStarted := false }
  else if !s.hasAudioStream && !micGranted then
    { state := s,
      result := { success := false, error := some "Microphone access denied",
                  code := some "MICROPHONE_ACCESS_DENIED" },
      encoderStarted := false }
  else
    { state := { isRecording := true, hasMediaRecorder := true, hasAudioStream := true,
                 mediaRecorderMime := mime, recordedChunks := [] },
      result := { success := true }, encoderStarted := true }

/-- `AudioRecorder.stopRecording()`. -/
def stopRecording (s : RecorderState) : RecorderState × JSResult :=
  if !s.isRecording || !s.hasMediaRecorder then
    (s, { success := false, error := some "Not recording" })
  else
    ({ s with isRecording := false }, { success := true })

/-- The `mediaRecorder.ondataavailable` handler: pushes a nonempty chunk
onto `recordedChunks`. -/
def onDataAvailable (s : RecorderState) (chunk : List Nat) : RecorderState :=
  if chunk.length > 0 then { s with recordedChunks := s.recordedChunks ++ [chunk] }
  else s

/-- A blob value: byte contents plus a mime tag. -/
structure BlobV where
  data : List Nat
  type : String
  deriving Repr, DecidableEq

/-- `AudioRecorder.getRecordingBlob()`: `null` when no chunks were captured,
otherwise the concatenation of all recorded chunks tagged with the
`MediaRecorder` mime type (falling back to `audio/webm`). -/
def getRecordingBlob (s : RecorderState) : Option BlobV :=
  if s.recordedChunks.length = 0 then none
  else some { data := s.recordedChunks.flatten,
              type := if s.hasMediaRecorder then s.mediaRecorderMime else "audio/webm" }

/-! ## FileUploader (src/client/js/audio/file_uploader.js) -/

/-- The `uploadSettings` object of `FileUploader`. -/
structure UploadSettings where
  maxFileSize : Nat
  supportedFormats : List String
  endpoint : String
  deriving Repr, DecidableEq

/-- The constructor defaults of `FileUploader.uploadSettings`. -/
def defaultUploadSettings : UploadSettings :=
  { maxFileSize := 50 * 1024 * 1024, supportedFormats := supportedTypes,
    endpoint := "/api/transcribe" }

/-- A partial update passed to `updateUploadSettings`. -/
structure UploadSettingsPatch where
  maxFileSize : Option Nat := none
  supportedFormats : Option (List String) := none
  endpoint : Option String := none
  deriving Repr, DecidableEq

/-- `FileUploader.updateUploadSettings(settings)`: object-spread merge. -/
def updateUploadSettings (s : UploadSettings) (p : UploadSettingsPatch) : UploadSettings :=
  { maxFileSize := p.maxFileSize.getD s.maxFileSize,
    supportedFormats := p.supportedFormats.getD s.supportedFormats,
    endpoint := p.endpoint.getD s.endpoint }

/-- `FileUploader.validateFile(file)`: delegates to `Utils.validateAudioFile`
without consulting the instance `uploadSettings`. -/
def validateFile (_settings : UploadSettings) (file : Option JSFile) : ValidationResult :=
  validateAudioFile file

/-- Server response to the multipart `POST /api/transcribe`. -/
inductive UploadServerResp
  | ok (id : String) (status : String)
  | httpError (detail : String)
  deriving Repr, DecidableEq

/-- The multipart request body built by `uploadFile`. -/
structure HttpPost where
  file : JSFile
  model : String
  language : Option String
  deriving Repr, DecidableEq

/-- The value resolved by `uploadFile`. -/
structure UploadResult where
  success : Bool
  error : Option String := none
  code : Option String := none
  requestId : Option String := none
  status : Option String := none
  deriving Repr, DecidableEq

/-- `FileUploader.uploadFile(file, options)`: validates first and returns a
`FILE_VALIDATION_FAILED` result without any network request when validation
fails; otherwise issues exactly one `POST` (returned in the request list)
and maps the server response.  `server` models the endpoint. -/
def uploadFile (server : HttpPost → UploadServerResp) (file : Option JSFile)
    (optModel : Option String) (optLanguage : Option String) :
    UploadResult × List HttpPost :=
  let validation := validateAudioFile file
  if validation.valid = false then
    ({ success := false, error := validation.error,
       code := some "FILE_VALIDATION_FAILED" }, [])
  else
    match file with
    | none =>
      -- unreachable: a missing file never passes validation
      ({ success := false, error := some "No file selected",
         code := some "FILE_VALIDATION_FAILED" }, [])
    | some f =>
      let post : HttpPost :=
        { file := f, model := optModel.getD "base", language := optLanguage }
      match server post with
      | .ok id status =>
        ({ success := true, requestId := some id, status := some status }, [post])
      | .httpError detail =>
        ({ success := false, error := some ("Upload failed: " ++ detail),
           code := some "UPLOAD_FAILED" }, [post])

/-! ### pollForResult

The status endpoint is modelled as a function from the 1-indexed attempt
number to the JSON body of `GET /api/transcribe/{id}`.  The crucial shape of
the source: the promise returned by `pollForResult` is the promise of the
FIRST `poll()` invocation only; when that invocation takes the
still-processing branch it calls `setTimeout(poll, pollInterval)` (whose
result is discarded) and falls off the end of the async function, so the
returned promise resolves to `undefined`. -/

/-- JSON body of one status poll. -/
structure StatusResponse where
  status : String
  text : Option String := none
  language : Option String := none
  processing_time : Option Nat := none
  error : Option String := none
  deriving Repr, DecidableEq

/-- Value an invocation of the inner `poll` async function resolves to. -/
inductive PollReturn
  | pollSuccess (result : StatusResponse)
  | pollFailed (errorMsg : String)
  | pollTimeout
  | pollUndefined
  deriving Repr, DecidableEq

/-- One invocation of the inner `poll()` at a given (already incremented)
attempt number. -/
def pollOnce (statusAt : Nat → StatusResponse) (maxAttempts attempt : Nat) : PollReturn :=
  let r := statusAt attempt
  if r.status = "completed" then .pollSuccess r
  else if r.status = "failed" then .pollFailed (r.error.getD "Transcription failed")
  else if attempt < maxAttempts then .pollUndefined
  else .pollTimeout

/-- `FileUploader.pollForResult(requestId, options)`: resolves with the value
of the first `poll()` invocation. -/
def pollForResult (statusAt : Nat → StatusResponse) (maxAttempts : Nat) : PollReturn :=
  pollOnce statusAt maxAttempts 1

/-- The detached `setTimeout` chain of `poll` invocations: the value computed
(and emitted as events) by the last invocation of the chain starting at
`attempt`, with enough fuel to reach a terminal branch. -/
def pollChain (statusAt : Nat → StatusResponse) (maxAttempts : Nat) :
    Nat → Nat → PollReturn
  | attempt, 0 => pollOnce statusAt maxAttempts attempt
  | attempt, fuel + 1 =>
    match pollOnce statusAt maxAttempts attempt with
    | .pollUndefined => pollChain statusAt maxAttempts (attempt + 1) fuel
    | r => r

/-- Status endpoint that reports `processing` on attempt 1 and `completed`
from attempt 2 on (the mocked endpoint of the spec scenario). -/
def statusCompletedOnAttempt2 : Nat → StatusResponse
  | 1 => { status := "processing" }
  | _ => { status := "completed", text := some "hello world", language := some "en",
           processing_time := some 2 }

/-! ## Settings (AudioClient / AudioClientV2) -/

/-- The `settings` object of the audio clients. -/
structure Settings where
  model : String
  language : Option String
  recordingMode : String
  autoSend : Bool
  deriving Repr, DecidableEq

/-- The constructor defaults of `AudioClientV2.settings`. -/
def defaultSettings : Settings :=
  { model := "base", language := none, recordingMode := "streaming", autoSend := true }

/-- A partial update passed to `updateSettings`: each field either absent or
carrying a replacement value. -/
structure SettingsPatch where
  model : Option String := none
  language : Option (Option String) := none
  recordingMode : Option String := none
  autoSend : Option Bool := none
  deriving Repr, DecidableEq

/-- `updateSettings(newSettings)` restricted to the settings value itself:
the object-spread merge `{...this.settings, ...newSettings}`. -/
def updateSettings (s : Settings) (p : SettingsPatch) : Settings :=
  { model := p.model.getD s.model,
    language := p.language.getD s.language,
    recordingMode := p.recordingMode.getD s.recordingMode,
    autoSend := p.autoSend.getD s.autoSend }

/-- `getSettings()`: returns a copy `{...this.settings}` of the value. -/
def getSettings (s : Settings) : Settings := s

/-! ## AudioClientV2 routing (src/unnamed/part_003)

`AudioClientV2.isConnected` is set on the inner client `connected` event
and cleared on `disconnected`, so it coincides with the `WSState` connected
flag; the model therefore carries the single `WSState`.  The third
component of `handleStreamingAudio` is the list of event names the call
emits on the composed emitter: the only emission in the source is the
`error` event of the `catch` branch around `blobToBase64`, which the total
encoder model never reaches. -/

/-- `AudioClientV2.handleStreamingAudio(audioBlob)`: base64-encode the blob,
tag its format from the blob mime (falling back to the recorder mime probe),
and hand it to `websocket.sendAudio`.  Returns the `send` result, the
messages transmitted, and the event names emitted by this call. -/
def handleStreamingAudio (ws : WSState) (settings : Settings) (supportedMime : String)
    (chunk : BlobV) : JSResult × List OutboundMessage × List String :=
  let data := blobToBase64 chunk.data
  let fmt := getFormatFromMimeType (if chunk.type = "" then supportedMime else chunk.type)
  let rs := sendAudio ws data fmt settings.model settings.language
  (rs.1, rs.2, [])

/-- `AudioClient.sendAudioChunk(audioBlob)` (the monolithic v1 client):
silently returns when not connected; otherwise transmits one Audio message.
Returns the messages transmitted and the event names emitted. -/
def sendAudioChunk (ws : WSState) (settings : Settings) (recorderMime : String)
    (chunk : BlobV) : List OutboundMessage × List String :=
  if !ws.isConnected || !ws.hasWebsocket then ([], [])
  else
    ([OutboundMessage.audio (blobToBase64 chunk.data)
        (getFormatFromMimeType (if chunk.type = "" then recorderMime else chunk.type))
        settings.model settings.language], [])

/-- `AudioClient.sendAudioFile(audioBlob)` (the monolithic v1 client):
in streaming mode the chunks were already sent, so it returns immediately;
otherwise it forwards the blob to `sendAudioChunk`. -/
def sendAudioFile (ws : WSState) (settings : Settings) (recorderMime : String)
    (blob : BlobV) : List OutboundMessage × List String :=
  if settings.recordingMode == "streaming" then ([], [])
  else sendAudioChunk ws settings recorderMime blob

/-- One invocation of `uploader.uploadAndWaitForResult` as issued by the
batch fallback, recording the file handed over. -/
structure UploadCall where
  fileName : String
  fileData : List Nat
  fileType : String
  model : String
  language : Option String
  deriving Repr, DecidableEq

/-- Observable dispatch of one batch-stop handling: the Audio messages
transmitted over the websocket and the `FileSubmitter` invocations issued. -/
structure BatchOutcome where
  wsMessages : List OutboundMessage
  uploadCalls : List UploadCall
  deriving Repr, DecidableEq

/-- `AudioClientV2.handleBatchRecording(recordingData)`: read the recorder
blob (`null` if no chunks); when connected, send it through
`handleStreamingAudio`; otherwise wrap it with `createFileFromBlob` and hand
it to `uploader.uploadAndWaitForResult`.  `now` models `Date.now()`. -/
def handleBatchRecording (ws : WSState) (settings : Settings) (supportedMime : String)
    (now : Nat) (rec : RecorderState) : BatchOutcome :=
  match getRecordingBlob rec with
  | none => { wsMessages := [], uploadCalls := [] }
  | some blob =>
    if ws.isConnected then
      { wsMessages := (handleStreamingAudio ws settings supportedMime blob).2.1,
        uploadCalls := [] }
    else
      { wsMessages := [],
        uploadCalls := [{ fileName := "recording_" ++ toString now ++ ".webm",
                          fileData := blob.data, fileType := blob.type,
                          model := settings.model, language := settings.language }] }

/-- The `recorder.on('recordingStopped', ...)` handler of `AudioClientV2`:
in batch mode with at least one captured chunk, run `handleBatchRecording`;
otherwise dispatch nothing. -/
def onRecordingStopped (ws : WSState) (settings : Settings) (supportedMime : String)
    (now : Nat) (rec : RecorderState) : BatchOutcome :=
  if settings.recordingMode == "batch" && rec.recordedChunks.length > 0 then
    handleBatchRecording ws settings supportedMime now rec
  else
    { wsMessages := [], uploadCalls := [] }

/-- The `mediaRecorder.onstop` handler of the monolithic `AudioClient` (v1,
src/client/js/audio-client.js:292-306): in batch mode with at least one
buffered chunk it builds the concatenated blob (tagged with the
`MediaRecorder` mime type) and passes it to `sendAudioFile`; there is no
`FileSubmitter` fallback anywhere on this path, so the upload-call list is
empty by construction. -/
def onStopV1 (ws : WSState) (settings : Settings) (recorderMime : String)
    (chunks : List (List Nat)) : BatchOutcome :=
  if settings.recordingMode == "batch" && chunks.length > 0 then
    { wsMessages := (sendAudioFile ws settings recorderMime
        { data := chunks.flatten, type := recorderMime }).1,
      uploadCalls := [] }
  else
    { wsMessages := [], uploadCalls := [] }

/-! ## Theorems -/

/-- Option helper: merging the same patch field twice is the same as once. -/
theorem getD_getD {α : Type} (o : Option α) (x : α) : o.getD (o.getD x) = o.getD x := by
  cases o <;> rfl

/-- C7: after `updateSettings(P)` a read via `getSettings` returns exactly
the field-wise merge of the previous settings overridden by the fields of
the patch (unmentioned fields unchanged), and applying the same update
twice yields the same settings as applying it once. -/
theorem settings_merge_idempotent (s : Settings) (p : SettingsPatch) :
    getSettings (updateSettings s p) =
      { model := p.model.getD s.model,
        language := p.language.getD s.language,
        recordingMode := p.recordingMode.getD s.recordingMode,
        autoSend := p.autoSend.getD s.autoSend } ∧
    updateSettings (updateSettings s p) p = updateSettings s p := by
  refine ⟨rfl, ?_⟩
  simp [updateSettings, getD_getD]

/-- C10: `FileUploader.validateFile` (the validation step of `uploadFile`)
ignores the configured `uploadSettings` entirely: after any sequence of
`updateUploadSettings` calls it still computes `Utils.validateAudioFile`
with its hard-coded 50 MB ceiling and MIME allow-list, so its outcome is
independent of the settings value. -/
theorem validateFile_ignores_uploadSettings (patches : List UploadSettingsPatch)
    (s1 s2 : UploadSettings) (file : Option JSFile) :
    validateFile (patches.foldl updateUploadSettings defaultUploadSettings) file =
      validateAudioFile file ∧
    validateFile s1 file = validateFile s2 file :=
  ⟨rfl, rfl⟩

/-- C8: `emit` fans an event out to the registered subscribers synchronously
in registration order (a callback registered by `on` runs after all earlier
ones, and the fan-out over a concatenation is sequential composition), and a
callback that throws has exactly the same effect on subsequent delivery as
one that does not throw — the `try`/`catch` confines the exception. -/
theorem emitter_fifo_exception_isolated {σ : Type} (m : EventMap σ) (e : String)
    (cb : EmCallback σ) (s : σ) (cbs1 cbs2 : List (EmCallback σ)) :
    emitterEmit (emitterOn m e cb) e s = emitStep (emitterEmit m e s) cb ∧
    emitList (cbs1 ++ cbs2) s = emitList cbs2 (emitList cbs1 s) ∧
    emitList (cbs1.map stripThrow) s = emitList cbs1 s := by
  refine ⟨?_, ?_, ?_⟩
  · simp [emitterEmit, emitterOn, emitList, List.foldl_append]
  · simp [emitList, List.foldl_append]
  · induction cbs1 generalizing s with
    | nil => rfl
    | cons c t ih =>
      calc emitList ((c :: t).map stripThrow) s
          = emitList (t.map stripThrow) (emitStep s (stripThrow c)) := rfl
        _ = emitList (t.map stripThrow) (emitStep s c) := rfl
        _ = emitList t (emitStep s c) := ih (emitStep s c)
        _ = emitList (c :: t) s := rfl

/-- C9: for every frequency-data byte array (elements in `0..255`, the empty
array included), `Utils.getAudioLevel` returns a value in the closed
interval `[0, 1]`. -/
theorem getAudioLevel_in_unit_interval (audioData : List Nat)
    (h : ∀ b ∈ audioData, b ≤ 255) :
    0 ≤ getAudioLevel audioData ∧ getAudioLevel audioData ≤ 1 := by
  unfold getAudioLevel
  by_cases hl : audioData.length = 0
  · simp [hl]
  · simp only [hl, if_false]
    refine ⟨le_min (by norm_num) ?_, min_le_left _ _⟩
    exact mul_nonneg (Real.sqrt_nonneg _) (by norm_num)

/-- Witness for C9 at the concrete array `[0, 128, 255]`. -/
theorem getAudioLevel_in_unit_interval_witness :
    0 ≤ getAudioLevel [0, 128, 255] ∧ getAudioLevel [0, 128, 255] ≤ 1 :=
  getAudioLevel_in_unit_interval [0, 128, 255] (by decide)

/-- C6: `startRecording` while already recording fails with the
`Already recording` error, leaves the recorder state untouched and does not
start the platform encoder; `stopRecording` while not recording fails with
the `Not recording` error and leaves the recorder state untouched. -/
theorem recorder_start_stop_guards (micGranted : Bool) (mime : String)
    (s t : RecorderState) (hs : s.isRecording = true) (ht : t.isRecording = false) :
    startRecording micGranted mime s =
      { state := s, result := { success := false, error := some "Already recording" },
        encoderStarted := false } ∧
    stopRecording t = (t, { success := false, error := some "Not recording" }) := by
  constructor
  · simp [startRecording, hs]
  · simp [stopRecording, ht]

/-- A recorder state that is mid-recording. -/
def recStateRecording : RecorderState :=
  { isRecording := true, hasMediaRecorder := true, hasAudioStream := true,
    mediaRecorderMime := "audio/webm", recordedChunks := [[1, 2]] }

/-- A recorder state that is idle. -/
def recStateIdle : RecorderState :=
  { isRecording := false, hasMediaRecorder := true, hasAudioStream := true,
    mediaRecorderMime := "audio/webm", recordedChunks := [] }

/-- Witness for C6 at concrete recording and idle states. -/
theorem recorder_start_stop_guards_witness :
    startRecording true "audio/webm" recStateRecording =
      { state := recStateRecording,
        result := { success := false, error := some "Already recording" },
        encoderStarted := false } ∧
    stopRecording recStateIdle =
      (recStateIdle, { success := false, error := some "Not recording" }) :=
  recorder_start_stop_guards true "audio/webm" recStateRecording recStateIdle rfl rfl

/-- C5: `uploadFile` called with a file that exceeds the 50 MB ceiling or
whose MIME type is not in the allow-list resolves with a
`FILE_VALIDATION_FAILED` failure and issues no network request. -/
theorem uploadFile_invalid_no_network (server : HttpPost → UploadServerResp)
    (f : JSFile) (optModel optLanguage : Option String)
    (h : maxAudioFileSize < f.size ∨ supportedTypes.contains f.type = false) :
    (uploadFile server (some f) optModel optLanguage).1.success = false ∧
    (uploadFile server (some f) optModel optLanguage).1.code =
      some "FILE_VALIDATION_FAILED" ∧
    (uploadFile server (some f) optModel optLanguage).2 = [] := by
  have hv : (validateAudioFile (some f)).valid = false := by
    unfold validateAudioFile
    rcases h with h | h
    · simp [h]
    · have h2 : f.type ∉ supportedTypes := by simpa using h
      by_cases hs : f.size > maxAudioFileSize
      · simp [hs]
      · simp [hs, h2]
  simp [uploadFile, hv]

/-- A 50 MB + 1 byte wav file. -/
def oversizedFile : JSFile :=
  { name := "big.wav", size := 50 * 1024 * 1024 + 1, type := "audio/wav" }

/-- A status endpoint stub that always accepts. -/
def acceptingServer : HttpPost → UploadServerResp :=
  fun _ => UploadServerResp.ok "req-1" "processing"

/-- Witness for C5 at a concrete oversized file. -/
theorem uploadFile_invalid_no_network_witness :
    (uploadFile acceptingServer (some oversizedFile) none none).1.success = false ∧
    (uploadFile acceptingServer (some oversizedFile) none none).1.code =
      some "FILE_VALIDATION_FAILED" ∧
    (uploadFile acceptingServer (some oversizedFile) none none).2 = [] :=
  uploadFile_invalid_no_network acceptingServer oversizedFile none none
    (Or.inl (by norm_num [maxAudioFileSize, oversizedFile]))

/-- An unintentional close bumps the attempt counter exactly when retries
remain. -/
theorem onClose_currentAttempt (cfg : ConnectionSettings) (s : WSState) :
    (onClose cfg 1006 s).1.currentAttempt =
      (if s.currentAttempt < cfg.reconnectAttempts then s.currentAttempt + 1
       else s.currentAttempt) := by
  unfold onClose shouldReconnect scheduleReconnect
  by_cases h : s.currentAttempt < cfg.reconnectAttempts <;> simp [h]

/-- The delay scheduled by an unintentional close: the backoff formula at
the incremented attempt number while retries remain, nothing afterwards. -/
theorem onClose_delay (cfg : ConnectionSettings) (s : WSState) :
    (onClose cfg 1006 s).2 =
      (if s.currentAttempt < cfg.reconnectAttempts then
        some (cfg.reconnectDelay * cfg.reconnectBackoff ^ s.currentAttempt)
       else none) := by
  unfold onClose shouldReconnect scheduleReconnect
  by_cases h : s.currentAttempt < cfg.reconnectAttempts <;> simp [h]

/-- The attempt counter after `n` consecutive unintentional closes is
`min n maxAttempts`: it increments while retries remain and then sticks. -/
theorem afterCloses_currentAttempt (cfg : ConnectionSettings) (n : Nat) :
    (afterCloses cfg n).currentAttempt = min n cfg.reconnectAttempts := by
  induction n with
  | zero => simp [afterCloses]
  | succ n ih =>
    show (onClose cfg 1006 (afterCloses cfg n)).1.currentAttempt = _
    rw [onClose_currentAttempt, ih]
    split <;> omega

/-- C3: the `n`-th consecutive reconnection attempt (1-indexed,
`n ≤ maxAttempts`) is scheduled with delay
`baseDelay * backoffFactor ^ (n - 1)`; once `maxAttempts` consecutive
failures have happened, a further unintentional close schedules no
reconnect; and a successful open resets the attempt counter to 0. -/
theorem reconnect_backoff_law (cfg : ConnectionSettings) (n k : Nat) (s : WSState)
    (h1 : 1 ≤ n) (h2 : n ≤ cfg.reconnectAttempts) (hk : cfg.reconnectAttempts ≤ k) :
    nthCloseDelay cfg n = some (cfg.reconnectDelay * cfg.reconnectBackoff ^ (n - 1)) ∧
    nthCloseDelay cfg (k + 1) = none ∧
    (onOpen s).currentAttempt = 0 := by
  refine ⟨?_, ?_, rfl⟩
  · rw [nthCloseDelay, onClose_delay, afterCloses_currentAttempt]
    have h3 : min (n - 1) cfg.reconnectAttempts = n - 1 := by omega
    rw [h3, if_pos (by omega)]
  · rw [nthCloseDelay, onClose_delay, afterCloses_currentAttempt]
    have h3 : min (k + 1 - 1) cfg.reconnectAttempts = cfg.reconnectAttempts := by omega
    rw [h3, if_neg (by omega)]

/-- Witness for C3 with the default connection settings, attempt 3 (delay
`1000 * 2 ^ 2`) and a sixth close after the five allowed attempts. -/
theorem reconnect_backoff_law_witness :
    nthCloseDelay defaultConnectionSettings 3 = some 4000 ∧
    nthCloseDelay defaultConnectionSettings 6 = none ∧
    (onOpen { isConnected := false, hasWebsocket := false, currentAttempt := 7 }).currentAttempt
      = 0 :=
  reconnect_backoff_law defaultConnectionSettings 3 5
    { isConnected := false, hasWebsocket := false, currentAttempt := 7 }
    (by decide) (by decide) (by decide)

/-- C1: at the spec's own scenario input — the status endpoint reports
`processing` on poll attempt 1 and `completed` on poll attempt 2, with the
default `maxAttempts = 60` — the promise returned by `pollForResult`
resolves to `undefined` (modelled as `pollUndefined`), because the
still-processing branch schedules the next poll with `setTimeout` and
discards its promise; the detached poll chain does reach the completed
result (and emits it as an event), but that value is never the resolution
of the returned promise. -/
theorem pollForResult_attempt2_result_dropped :
    pollForResult statusCompletedOnAttempt2 60 = PollReturn.pollUndefined ∧
    pollChain statusCompletedOnAttempt2 60 1 60 =
      PollReturn.pollSuccess
        { status := "completed", text := some "hello world", language := some "en",
          processing_time := some 2 } := by
  constructor <;> rfl

/-- A transport state that is not connected. -/
def demoDisconnectedWS : WSState :=
  { isConnected := false, hasWebsocket := true, currentAttempt := 0 }

/-- A one-chunk blob. -/
def demoChunk : BlobV := { data := [1, 2, 3], type := "audio/webm" }

/-- C2 counterexample: dispatching a streaming chunk while the transport is
not connected emits no event at all — in particular no `sendFailed` event —
in both the composed client (`handleStreamingAudio`) and the monolithic
client (`sendAudioChunk`); the claim that a `sendFailed` event is emitted is
false at this concrete input. -/
theorem streaming_drop_emits_no_sendFailed :
    (handleStreamingAudio demoDisconnectedWS defaultSettings "audio/webm" demoChunk).2.2 = [] ∧
    "sendFailed" ∉
      (handleStreamingAudio demoDisconnectedWS defaultSettings "audio/webm" demoChunk).2.2 ∧
    (sendAudioChunk demoDisconnectedWS defaultSettings "audio/webm" demoChunk).2 = [] := by
  refine ⟨rfl, ?_, rfl⟩
  intro hmem
  simp [handleStreamingAudio, sendAudio, wsSend, demoDisconnectedWS] at hmem

/-- C2 as amended: a streaming chunk dispatched while the transport is not
connected transmits nothing and is not buffered for retry — the dispatch is
a pure drop whose only trace is the `NOT_CONNECTED` failure result returned
to the (discarding) caller; no event, `sendFailed` or otherwise, is
emitted. -/
theorem streaming_drop_when_disconnected (ws : WSState) (settings : Settings)
    (supportedMime : String) (chunk : BlobV) (h : ws.isConnected = false) :
    handleStreamingAudio ws settings supportedMime chunk =
      ({ success := false, error := some "Not connected to server",
         code := some "NOT_CONNECTED" }, [], []) ∧
    sendAudioChunk ws settings supportedMime chunk = ([], []) := by
  constructor
  · simp [handleStreamingAudio, sendAudio, wsSend, h]
  · simp [sendAudioChunk, h]

/-- Witness for the amended C2 at a concrete disconnected state. -/
theorem streaming_drop_when_disconnected_witness :
    handleStreamingAudio demoDisconnectedWS defaultSettings "audio/ogg"
        { data := [7], type := "audio/ogg" } =
      ({ success := false, error := some "Not connected to server",
         code := some "NOT_CONNECTED" }, [], []) ∧
    sendAudioChunk demoDisconnectedWS defaultSettings "audio/ogg"
        { data := [7], type := "audio/ogg" } = ([], []) :=
  streaming_drop_when_disconnected demoDisconnectedWS defaultSettings "audio/ogg"
    { data := [7], type := "audio/ogg" } rfl

/-- A recorder state holding two batch chunks. -/
def recStateTwoChunks : RecorderState :=
  { isRecording := false, hasMediaRecorder := true, hasAudioStream := true,
    mediaRecorderMime := "audio/webm", recordedChunks := [[1, 2], [3]] }

/-- Batch-mode settings. -/
def batchSettings : Settings :=
  { model := "base", language := none, recordingMode := "batch", autoSend := true }

/-- C4 counterexample: in the monolithic `AudioClient`, a batch-mode stop
with two buffered chunks while the transport is not connected issues zero
`FileSubmitter` upload requests (and transmits nothing): the onstop handler
forwards to `sendAudioFile` → `sendAudioChunk`, which returns silently when
disconnected, so the claim's `otherwise exactly one FileSubmitter upload
request is issued` is false at this concrete input. -/
theorem batch_stop_v1_drops_when_disconnected :
    (onStopV1 demoDisconnectedWS batchSettings "audio/webm" [[1, 2], [3]]).uploadCalls.length
      = 0 ∧
    (onStopV1 demoDisconnectedWS batchSettings "audio/webm" [[1, 2], [3]]).wsMessages = [] := by
  constructor <;> rfl

/-- C4 as amended: stopping a batch-mode recording that captured at least
one chunk (`getRecordingBlob` returns a blob, which is exactly the
concatenation of all recorded chunks) produces at most one dispatch,
however many chunks were buffered.  When connected, both clients send a
single Audio message carrying the base64 of the concatenated blob and make
no uploader call.  When not connected, the composed client
(`AudioClientV2`) issues exactly one `FileSubmitter` invocation handed the
concatenated blob, while the monolithic client (`AudioClient`) issues no
`FileSubmitter` request and no message at all — the recording is dropped
without dispatch. -/
theorem batch_stop_dispatch_amended (ws : WSState) (settings : Settings)
    (supportedMime recorderMime : String) (now : Nat) (rec : RecorderState) (blob : BlobV)
    (chunks : List (List Nat))
    (hmode : settings.recordingMode = "batch")
    (hblob : getRecordingBlob rec = some blob)
    (hchunks : chunks ≠ [])
    (hws : ws.hasWebsocket = true) :
    blob.data = rec.recordedChunks.flatten ∧
    (onRecordingStopped ws settings supportedMime now rec).wsMessages.length +
      (onRecordingStopped ws settings supportedMime now rec).uploadCalls.length = 1 ∧
    (ws.isConnected = true →
      (onRecordingStopped ws settings supportedMime now rec).wsMessages =
        [OutboundMessage.audio (blobToBase64 blob.data)
          (getFormatFromMimeType (if blob.type = "" then supportedMime else blob.type))
          settings.model settings.language] ∧
      (onRecordingStopped ws settings supportedMime now rec).uploadCalls = []) ∧
    (ws.isConnected = false →
      (onRecordingStopped ws settings supportedMime now rec).wsMessages = [] ∧
      (onRecordingStopped ws settings supportedMime now rec).uploadCalls =
        [{ fileName := "recording_" ++ toString now ++ ".webm",
           fileData := blob.data, fileType := blob.type,
           model := settings.model, language := settings.language }]) ∧
    (ws.isConnected = true →
      onStopV1 ws settings recorderMime chunks =
        { wsMessages := [OutboundMessage.audio (blobToBase64 chunks.flatten)
            (getFormatFromMimeType recorderMime) settings.model settings.language],
          uploadCalls := [] }) ∧
    (ws.isConnected = false →
      onStopV1 ws settings recorderMime chunks =
        { wsMessages := [], uploadCalls := [] }) := by
  have hlen : rec.recordedChunks.length > 0 := by
    by_contra hc
    have hz : rec.recordedChunks.length = 0 := by omega
    rw [getRecordingBlob, if_pos hz] at hblob
    exact Option.noConfusion hblob
  have hdata : blob.data = rec.recordedChunks.flatten := by
    rw [getRecordingBlob, if_neg (by omega)] at hblob
    cases hblob
    rfl
  have hstop : onRecordingStopped ws settings supportedMime now rec =
      handleBatchRecording ws settings supportedMime now rec := by
    rw [onRecordingStopped, if_pos]
    simp [hmode, hlen]
  have hclen : chunks.length > 0 := by
    cases chunks with
    | nil => exact absurd rfl hchunks
    | cons c t => simp
  refine ⟨hdata, ?_, ?_, ?_, ?_, ?_⟩
  · rw [hstop, handleBatchRecording, hblob]
    cases hconn : ws.isConnected
    · simp
    · simp [handleStreamingAudio, sendAudio, wsSend, hconn, hws]
  · intro hconn
    rw [hstop, handleBatchRecording, hblob]
    simp [handleStreamingAudio, sendAudio, wsSend, hconn, hws]
  · intro hconn
    rw [hstop, handleBatchRecording, hblob]
    simp [hconn]
  · intro hconn
    rw [onStopV1, if_pos (by simp [hmode, hclen])]
    simp [sendAudioFile, sendAudioChunk, hmode, hconn, hws]
  · intro hconn
    rw [onStopV1]
    split
    · simp [sendAudioFile, sendAudioChunk, hmode, hconn]
    · rfl

/-- Witness for the amended C4: a connected stop with two buffered chunks
yields exactly one Audio message carrying the concatenation `[1, 2, 3]` in
both clients, and no uploader call. -/
theorem batch_stop_dispatch_amended_witness :
    ([1, 2, 3] : List Nat) = recStateTwoChunks.recordedChunks.flatten ∧
    (onRecordingStopped { isConnected := true, hasWebsocket := true, currentAttempt := 0 }
        batchSettings "audio/webm" 0 recStateTwoChunks).wsMessages.length +
      (onRecordingStopped { isConnected := true, hasWebsocket := true, currentAttempt := 0 }
        batchSettings "audio/webm" 0 recStateTwoChunks).uploadCalls.length = 1 ∧
    (onRecordingStopped { isConnected := true, hasWebsocket := true, currentAttempt := 0 }
        batchSettings "audio/webm" 0 recStateTwoChunks).wsMessages =
      [OutboundMessage.audio (blobToBase64 [1, 2, 3])
        (getFormatFromMimeType
          (if ("audio/webm" : String) = "" then "audio/webm" else "audio/webm"))
        batchSettings.model batchSettings.language] ∧
    (onRecordingStopped { isConnected := true, hasWebsocket := true, currentAttempt := 0 }
        batchSettings "audio/webm" 0 recStateTwoChunks).uploadCalls = [] ∧
    onStopV1 { isConnected := true, hasWebsocket := true, currentAttempt := 0 }
        batchSettings "audio/webm" [[1, 2], [3]] =
      { wsMessages := [OutboundMessage.audio (blobToBase64 ([[1, 2], [3]] : List (List Nat)).flatten)
          (getFormatFromMimeType "audio/webm") batchSettings.model batchSettings.language],
        uploadCalls := [] } := by
  have h := batch_stop_dispatch_amended
    { isConnected := true, hasWebsocket := true, currentAttempt := 0 }
    batchSettings "audio/webm" "audio/webm" 0 recStateTwoChunks
    { data := [1, 2, 3], type := "audio/webm" } [[1, 2], [3]]
    rfl rfl (by simp) rfl
  exact ⟨h.1, h.2.1, (h.2.2.1 rfl).1, (h.2.2.1 rfl).2, h.2.2.2.2.1 rfl⟩

end SpeakToMe
